import Mathlib

/-!
Verification of the real-time hub of the bus tracking server
(`server/routes.ts`): the WebSocket connection registry, the auth
snapshot pushes, the `updateLocation` ingest/broadcast, and the
incident fan-out of `POST /api/incidents`, shallowly embedded in Lean.
-/

namespace BusHub

/-- Parsed JSON values, the result of `JSON.parse` on an inbound frame
and the content of `jsonb` columns.  Numbers are modelled as integers:
the hub never computes with them, it only stores and forwards them. -/
inductive JVal where
  | jnull : JVal
  | jbool : Bool → JVal
  | jnum : Int → JVal
  | jstr : String → JVal
  | jarr : List JVal → JVal
  | jobj : List (String × JVal) → JVal

open JVal

/-- JavaScript truthiness of a parsed JSON value (`if (data.userId)`…):
`null`, `false`, `0` and `""` are falsy, everything else truthy.
(`undefined` for a missing field is modelled as `jnull`.) -/
def truthy : JVal → Bool
  | jnull => false
  | jbool b => b
  | jnum n => n != 0
  | jstr s => s != ""
  | jarr _ => true
  | jobj _ => true

/-- Property access `data.f`: the field's value on an object, the
missing-property value (`undefined`, modelled `jnull`) otherwise. -/
def getField : JVal → String → JVal
  | jobj fs, k => (fs.find? (fun p => p.1 == k)).elim jnull Prod.snd
  | _, _ => jnull

/-- `v === "s"`: strict equality of a parsed value with a string
literal, as in `data.type === 'auth'` and `client.role === 'driver'`. -/
def isStr (v : JVal) (s : String) : Bool :=
  match v with
  | jstr t => t == s
  | _ => false

/-- SQL scalar equality used by drizzle's `eq(column, value)`:
`NULL` matches nothing, scalars match their own kind. -/
def sqlEq : JVal → JVal → Bool
  | jnum a, jnum b => a == b
  | jstr a, jstr b => a == b
  | jbool a, jbool b => a == b
  | _, _ => false

/-! ## Database rows (from `@shared/schema`, `schema.ts`) -/

/-- A row of `users`. -/
structure User where
  id : Int
  username : String
  password : String
  email : String
  role : String
  fullName : Option String
  phone : Option String
  createdAt : String
deriving Repr, DecidableEq

/-- A row of `buses`.  `currentLocation` is a `jsonb` column and
`driverId` a nullable integer column, both kept as `JVal`. -/
structure Bus where
  id : Int
  busNumber : String
  capacity : Int
  status : String
  currentLocation : JVal
  driverId : JVal
  routeId : Option Int
  createdAt : String

/-- A row of `routes`. -/
structure Route where
  id : Int
  name : String
  description : Option String
  status : String
  createdAt : String
deriving Repr, DecidableEq

/-- A row of `route_stops` (composite key `routeId`,`stopId`). -/
structure RouteStop where
  routeId : Int
  stopId : Int
  order : Int
  scheduledArrival : Option String
  scheduledDeparture : Option String
deriving Repr, DecidableEq

/-- A row of `stops`; `location` is a `jsonb` column. -/
structure Stop where
  id : Int
  name : String
  location : JVal
  createdAt : String

/-- A row of `incidents`. -/
structure Incident where
  id : Int
  busId : Int
  reportedBy : Int
  incidentType : String
  description : String
  location : JVal
  status : String
  createdAt : String
  resolvedAt : Option String

/-- The tables the hub touches, in their stored row order. -/
structure DB where
  buses : List Bus
  routes : List Route
  routeStops : List RouteStop
  stops : List Stop

/-! ## The relational queries of the two auth snapshots
(`db.query.buses.findMany`/`findFirst` with nested `with` clauses) -/

/-- A `route_stops` row joined `with: { stop: true }`. -/
structure RouteStopDetail where
  rs : RouteStop
  stop : Option Stop

/-- A `routes` row joined `with: { routeStops: ... }`. -/
structure RouteDetail where
  route : Route
  routeStops : List RouteStopDetail

/-- A `buses` row joined `with: { route: ... }`. -/
structure BusDetail where
  bus : Bus
  route : Option RouteDetail

/-- The `stop: true` join of one `route_stops` row. -/
def stopOf (db : DB) (rs : RouteStop) : Option Stop :=
  db.stops.find? (fun s => s.id == rs.stopId)

/-- The `routeStops: { with: { stop: true } }` join for one route, in
stored row order — the passenger query has no `orderBy`. -/
def routeStopsOf (db : DB) (rid : Int) : List RouteStopDetail :=
  (db.routeStops.filter (fun rs => rs.routeId == rid)).map
    (fun rs => ⟨rs, stopOf db rs⟩)

/-- The comparison of `orderBy: (f, o) => o.asc(f.order)`. -/
def rsLE (a b : RouteStopDetail) : Prop := a.rs.order ≤ b.rs.order

instance : DecidableRel rsLE := fun x y => inferInstanceAs (Decidable (x.rs.order ≤ y.rs.order))

instance : IsTotal RouteStopDetail rsLE := ⟨fun a b => le_total a.rs.order b.rs.order⟩

instance : IsTrans RouteStopDetail rsLE := ⟨fun _ _ _ h h' => le_trans h h'⟩

/-- The driver query's `routeStops` join, with
`orderBy: (fields, operators) => operators.asc(fields.order)`. -/
def routeStopsOrdered (db : DB) (rid : Int) : List RouteStopDetail :=
  List.insertionSort rsLE (routeStopsOf db rid)

/-- The `route: { with: ... }` join of the passenger query
(no `orderBy` on the nested `routeStops`). -/
def routeDetailOf (db : DB) (b : Bus) : Option RouteDetail :=
  b.routeId.bind (fun rid =>
    (db.routes.find? (fun r => r.id == rid)).map
      (fun r => ⟨r, routeStopsOf db rid⟩))

/-- The `route: { with: ... }` join of the driver query
(nested `routeStops` ordered ascending by `order`). -/
def routeDetailOrderedOf (db : DB) (b : Bus) : Option RouteDetail :=
  b.routeId.bind (fun rid =>
    (db.routes.find? (fun r => r.id == rid)).map
      (fun r => ⟨r, routeStopsOrdered db rid⟩))

/-- The passenger snapshot query:
`findMany({ where: eq(buses.status, 'active'), with: { route: ... } })`. -/
def activeBuses (db : DB) : List BusDetail :=
  (db.buses.filter (fun b => b.status == "active")).map
    (fun b => ⟨b, routeDetailOf db b⟩)

/-- `findFirst({ where: eq(buses.driverId, userId) })`: the bus row
assigned to a driver identity, if any. -/
def findDriverBus (db : DB) (userId : JVal) : Option Bus :=
  db.buses.find? (fun b => sqlEq b.driverId userId)

/-- The driver snapshot query: `findFirst` on `driverId` with the
order-sorted route join. -/
def driverBusDetail (db : DB) (userId : JVal) : Option BusDetail :=
  (findDriverBus db userId).map (fun b => ⟨b, routeDetailOrderedOf db b⟩)

/-- `db.update(buses).set({ currentLocation: loc }).where(eq(buses.id, busId))`. -/
def updateBusLocation (db : DB) (busId : Int) (loc : JVal) : DB :=
  { db with
    buses := db.buses.map fun b =>
      if b.id == busId then { b with currentLocation := loc } else b }

/-! ## Connection registry
`const connectedClients: Map<string, { ws, role, userId }> = new Map()`.
A JS `Map` is insertion-ordered with unique keys: modelled as an
association list; `set` overwrites in place or appends. -/

/-- The value stored per client id (the `ws` handle is identified with
the client id; its open state and write outcomes are supplied to the
handlers as oracles). -/
structure ClientEntry where
  role : JVal
  userId : JVal

/-- The registry: insertion-ordered `(clientId, entry)` pairs. -/
abbrev Registry := List (String × ClientEntry)

/-- `connectedClients.set(clientId, entry)`. -/
def setClient (cs : Registry) (k : String) (v : ClientEntry) : Registry :=
  if cs.any (fun p => p.1 == k) then
    cs.map fun p => if p.1 == k then (k, v) else p
  else cs ++ [(k, v)]

/-- `connectedClients.get(clientId)`. -/
def lookupClient (cs : Registry) (k : String) : Option ClientEntry :=
  (cs.find? (fun p => p.1 == k)).map Prod.snd

/-- `connectedClients.delete(clientId)` (the `close` handler). -/
def deleteClient (cs : Registry) (k : String) : Registry :=
  cs.filter (fun p => p.1 != k)

/-! ## Outbound messages and the broadcast loops -/

/-- An incident row joined `with: { bus: true, reporter: true }`
(`incidentWithDetails` in `POST /api/incidents`). -/
structure IncidentWithDetails where
  incident : Incident
  bus : Option Bus
  reporter : Option User

/-- The server→client message shapes of the hub. -/
inductive ServerMsg where
  | busLocations (data : List BusDetail)
  | busRoute (data : BusDetail)
  | busLocationUpdate (busId : Int) (location : JVal)
  | newIncident (data : IncidentWithDetails)

/-- One attempted `ws.send`: target client id, message, and whether the
write succeeded (`ok = false` means the send threw). -/
structure SendEvent where
  target : String
  msg : ServerMsg
  ok : Bool

/-- The mutable server state the hub closes over. -/
structure ServerState where
  clients : Registry
  db : DB

/-- The fan-out loop
`for (const [, client] of connectedClients) if (client.role === role && client.ws.readyState === OPEN) client.ws.send(msg)`.
`isOpen` gives each socket's ready state, `sendFail` whether the write
throws.  There is no `try` inside the loop, so a throwing send aborts
the remaining iterations; the second component reports whether the loop
was aborted by a throw. -/
def broadcastToRole (cs : Registry) (role : String)
    (isOpen sendFail : String → Bool) (msg : ServerMsg) :
    List SendEvent × Bool :=
  match cs with
  | [] => ([], false)
  | (cid, e) :: rest =>
    if isStr e.role role && isOpen cid then
      if sendFail cid then ([⟨cid, msg, false⟩], true)
      else
        let r := broadcastToRole rest role isOpen sendFail msg
        (⟨cid, msg, true⟩ :: r.1, r.2)
    else broadcastToRole rest role isOpen sendFail msg

/-- The per-message WebSocket handler (`ws.on('message', ...)` in
`registerRoutes`), for one parsed frame `raw` from connection
`clientId`.  Returns the updated server state and the sends attempted;
the surrounding `try/catch` makes the handler total. -/
def handleMessage (st : ServerState) (clientId : String) (raw : JVal)
    (isOpen sendFail : String → Bool) : ServerState × List SendEvent :=
  if isStr (getField raw "type") "auth" &&
      truthy (getField raw "userId") && truthy (getField raw "role") then
    let entry : ClientEntry := ⟨getField raw "role", getField raw "userId"⟩
    let cs' := setClient st.clients clientId entry
    if isStr (getField raw "role") "passenger" then
      ({ st with clients := cs' },
       [⟨clientId, ServerMsg.busLocations (activeBuses st.db), !sendFail clientId⟩])
    else if isStr (getField raw "role") "driver" then
      match driverBusDetail st.db (getField raw "userId") with
      | some bd =>
        ({ st with clients := cs' },
         [⟨clientId, ServerMsg.busRoute bd, !sendFail clientId⟩])
      | none => ({ st with clients := cs' }, [])
    else ({ st with clients := cs' }, [])
  else if isStr (getField raw "type") "updateLocation" &&
      truthy (getField raw "location") then
    match lookupClient st.clients clientId with
    | some client =>
      if isStr client.role "driver" then
        match findDriverBus st.db client.userId with
        | some driverBus =>
          let db' := updateBusLocation st.db driverBus.id (getField raw "location")
          let r := broadcastToRole st.clients "passenger" isOpen sendFail
            (ServerMsg.busLocationUpdate driverBus.id (getField raw "location"))
          ({ st with db := db' }, r.1)
        | none => (st, [])
      else (st, [])
    | none => (st, [])
  else (st, [])

/-- The admin notification loop of `POST /api/incidents`
(`for (const [, client] of connectedClients) if (client.role === 'admin' && ... OPEN) client.ws.send({type:'newIncident', data})`). -/
def notifyAdmins (cs : Registry) (isOpen sendFail : String → Bool)
    (inc : IncidentWithDetails) : List SendEvent × Bool :=
  broadcastToRole cs "admin" isOpen sendFail (ServerMsg.newIncident inc)

/-! ## JSON serialization of the `newIncident` frame
(`JSON.stringify` on the server, `JSON.parse` on the client) -/

/-- A nullable column in JSON form. -/
def encodeOpt (f : α → JVal) : Option α → JVal
  | none => jnull
  | some x => f x

/-- JSON form of a `users` row. -/
def encodeUser (u : User) : JVal :=
  jobj [("id", jnum u.id), ("username", jstr u.username),
        ("password", jstr u.password), ("email", jstr u.email),
        ("role", jstr u.role), ("fullName", encodeOpt jstr u.fullName),
        ("phone", encodeOpt jstr u.phone), ("createdAt", jstr u.createdAt)]

/-- JSON form of a `buses` row. -/
def encodeBus (b : Bus) : JVal :=
  jobj [("id", jnum b.id), ("busNumber", jstr b.busNumber),
        ("capacity", jnum b.capacity), ("status", jstr b.status),
        ("currentLocation", b.currentLocation), ("driverId", b.driverId),
        ("routeId", encodeOpt jnum b.routeId), ("createdAt", jstr b.createdAt)]

/-- JSON form of `incidentWithDetails`: the incident columns with the
joined `bus` and `reporter` rows nested. -/
def encodeIncidentWithDetails (i : IncidentWithDetails) : JVal :=
  jobj [("id", jnum i.incident.id), ("busId", jnum i.incident.busId),
        ("reportedBy", jnum i.incident.reportedBy),
        ("incidentType", jstr i.incident.incidentType),
        ("description", jstr i.incident.description),
        ("location", i.incident.location),
        ("status", jstr i.incident.status),
        ("createdAt", jstr i.incident.createdAt),
        ("resolvedAt", encodeOpt jstr i.incident.resolvedAt),
        ("bus", encodeOpt encodeBus i.bus),
        ("reporter", encodeOpt encodeUser i.reporter)]

/-- The whole wire frame `{ type: 'newIncident', data: ... }`. -/
def encodeNewIncidentFrame (i : IncidentWithDetails) : JVal :=
  jobj [("type", jstr "newIncident"), ("data", encodeIncidentWithDetails i)]

/-- Read an integer field back. -/
def asInt : JVal → Option Int
  | jnum n => some n
  | _ => none

/-- Read a text field back. -/
def asStr : JVal → Option String
  | jstr s => some s
  | _ => none

/-- Read a nullable text field back. -/
def asOptStr : JVal → Option (Option String)
  | jnull => some none
  | jstr s => some (some s)
  | _ => none

/-- Read a nullable integer field back. -/
def asOptInt : JVal → Option (Option Int)
  | jnull => some none
  | jnum n => some (some n)
  | _ => none

/-- Parse a `users` row from JSON. -/
def decodeUser (v : JVal) : Option User := do
  let id ← asInt (getField v "id")
  let username ← asStr (getField v "username")
  let password ← asStr (getField v "password")
  let email ← asStr (getField v "email")
  let role ← asStr (getField v "role")
  let fullName ← asOptStr (getField v "fullName")
  let phone ← asOptStr (getField v "phone")
  let createdAt ← asStr (getField v "createdAt")
  pure ⟨id, username, password, email, role, fullName, phone, createdAt⟩

/-- Parse a `buses` row from JSON; the `jsonb` columns and the nullable
`driverId` are taken verbatim. -/
def decodeBus (v : JVal) : Option Bus := do
  let id ← asInt (getField v "id")
  let busNumber ← asStr (getField v "busNumber")
  let capacity ← asInt (getField v "capacity")
  let status ← asStr (getField v "status")
  let routeId ← asOptInt (getField v "routeId")
  let createdAt ← asStr (getField v "createdAt")
  pure ⟨id, busNumber, capacity, status, getField v "currentLocation",
        getField v "driverId", routeId, createdAt⟩

/-- Parse a nested nullable row. -/
def decodeOptWith (f : JVal → Option α) : JVal → Option (Option α)
  | jnull => some none
  | v => (f v).map some

/-- Parse `incidentWithDetails` back from its JSON form. -/
def decodeIncidentWithDetails (v : JVal) : Option IncidentWithDetails := do
  let id ← asInt (getField v "id")
  let busId ← asInt (getField v "busId")
  let reportedBy ← asInt (getField v "reportedBy")
  let incidentType ← asStr (getField v "incidentType")
  let description ← asStr (getField v "description")
  let status ← asStr (getField v "status")
  let createdAt ← asStr (getField v "createdAt")
  let resolvedAt ← asOptStr (getField v "resolvedAt")
  let bus ← decodeOptWith decodeBus (getField v "bus")
  let reporter ← decodeOptWith decodeUser (getField v "reporter")
  pure ⟨⟨id, busId, reportedBy, incidentType, description,
         getField v "location", status, createdAt, resolvedAt⟩, bus, reporter⟩

/-! ## Event traces over the hub -/

/-- One external event hitting the hub: an inbound frame on a
connection, or a socket close. -/
inductive Ev where
  | msg (cid : String) (raw : JVal) (isOpen sendFail : String → Bool)
  | close (cid : String)

/-- State transition of one event (`message` handler / `close` handler). -/
def step (st : ServerState) : Ev → ServerState
  | Ev.msg cid raw o f => (handleMessage st cid raw o f).1
  | Ev.close cid => { st with clients := deleteClient st.clients cid }

/-- Run a trace of events from a state. -/
def run (st : ServerState) (evs : List Ev) : ServerState :=
  evs.foldl step st

/-! ## Concrete fixtures (for evaluating the model on closed inputs) -/

/-- A stop row. -/
def exStopA : Stop := ⟨10, "Stop A", jnull, "t0"⟩

/-- A second stop row. -/
def exStopB : Stop := ⟨11, "Stop B", jnull, "t0"⟩

/-- Route-stop row with `order = 1`. -/
def exRS1 : RouteStop := ⟨1, 10, 1, none, none⟩

/-- Route-stop row with `order = 2`. -/
def exRS2 : RouteStop := ⟨1, 11, 2, none, none⟩

/-- A route row. -/
def exRoute : Route := ⟨1, "R1", none, "active", "t0"⟩

/-- An active bus assigned to driver `7` on route `1`. -/
def exBus : Bus := ⟨1, "B-1", 40, "active", jnull, jnum 7, some 1, "t0"⟩

/-- A database whose `route_stops` rows are stored out of `order`
(the row with `order = 2` precedes the row with `order = 1`). -/
def exDB : DB := ⟨[exBus], [exRoute], [exRS2, exRS1], [exStopA, exStopB]⟩

/-- A registry with one passenger, one driver (user 7) and one admin. -/
def exClients : Registry :=
  [("p1", ⟨jstr "passenger", jnum 1⟩), ("d1", ⟨jstr "driver", jnum 7⟩),
   ("a1", ⟨jstr "admin", jnum 9⟩)]

/-- All sockets open. -/
def allOpen : String → Bool := fun _ => true

/-- No write ever throws. -/
def noFail : String → Bool := fun _ => false

/-- A well-formed `updateLocation` frame. -/
def exUpdRaw : JVal :=
  jobj [("type", jstr "updateLocation"),
        ("location", jobj [("lat", jnum 1), ("lng", jnum 2)])]

/-- An `updateLocation` frame whose `location` is an empty object:
truthy, but with `lat` and `lng` missing. -/
def exBadLocRaw : JVal :=
  jobj [("type", jstr "updateLocation"), ("location", jobj [])]

/-- A passenger `auth` frame. -/
def exAuthPassengerRaw : JVal :=
  jobj [("type", jstr "auth"), ("userId", jnum 1), ("role", jstr "passenger")]

/-- A driver `auth` frame for user 7. -/
def exAuthDriverRaw : JVal :=
  jobj [("type", jstr "auth"), ("userId", jnum 7), ("role", jstr "driver")]

/-- A user row. -/
def exUser : User := ⟨2, "u2", "pw", "u2@example.com", "passenger", none, none, "t0"⟩

/-- An incident with its joined bus and reporter. -/
def exInc : IncidentWithDetails :=
  ⟨⟨1, 1, 2, "delay", "bus is late", jnull, "reported", "t1", none⟩,
   some exBus, some exUser⟩

/-- A registry of two open passengers, in insertion order. -/
def exClients8 : Registry :=
  [("p1", ⟨jstr "passenger", jnum 1⟩), ("p2", ⟨jstr "passenger", jnum 2⟩)]

/-- The write to `p1` throws; all others succeed. -/
def failP1 : String → Bool := fun c => c == "p1"

/-- Registry well-formedness: every entry carries a truthy role and a
truthy userId (the fields the `auth` guard requires before `set`). -/
def RegOk (cs : Registry) : Prop :=
  ∀ p ∈ cs, truthy p.2.role = true ∧ truthy p.2.userId = true

/-! ## Helper lemmas -/

/-- A value strictly equal (`===`) to one string literal is not
strictly equal to a different one. -/
lemma isStr_ne {v : JVal} {s s' : String} (h : isStr v s = true) (hne : s ≠ s') :
    isStr v s' = false := by
  cases v <;> simp_all [isStr]

/-- When no write throws, the broadcast loop delivers exactly to the
matching open connections, in registry order. -/
lemma broadcastToRole_no_fail (cs : Registry) (role : String) (o f : String → Bool)
    (m : ServerMsg) (hf : ∀ x, f x = false) :
    broadcastToRole cs role o f m =
      ((cs.filter (fun p => isStr p.2.role role && o p.1)).map
        (fun p => ⟨p.1, m, true⟩), false) := by
  induction cs with
  | nil => rfl
  | cons hd tl ih =>
    obtain ⟨cid, e⟩ := hd
    by_cases hel : (isStr e.role role && o cid) = true <;>
      simp [broadcastToRole, hel, hf, List.filter_cons, ih]

/-- Full characterization of the broadcast loop: the eligible
connections before the first throwing one are delivered, the first
throwing one gets a failed write, everything after it is skipped. -/
lemma broadcastToRole_eq (cs : Registry) (role : String) (o f : String → Bool)
    (m : ServerMsg) :
    broadcastToRole cs role o f m =
      (((cs.filter (fun p => isStr p.2.role role && o p.1)).takeWhile
          (fun p => !f p.1)).map (fun p => ⟨p.1, m, true⟩) ++
        (((cs.filter (fun p => isStr p.2.role role && o p.1)).dropWhile
          (fun p => !f p.1)).head?.elim [] (fun p => [⟨p.1, m, false⟩])),
       (cs.filter (fun p => isStr p.2.role role && o p.1)).any (fun p => f p.1)) := by
  induction cs with
  | nil => rfl
  | cons hd tl ih =>
    obtain ⟨cid, e⟩ := hd
    by_cases hel : (isStr e.role role && o cid) = true
    · by_cases hfc : f cid = true
      · simp [broadcastToRole, hel, hfc, List.filter_cons, List.takeWhile_cons,
          List.dropWhile_cons]
      · simp [broadcastToRole, hel, hfc, List.filter_cons, List.takeWhile_cons,
          List.dropWhile_cons, ih]
    · simp [broadcastToRole, hel, List.filter_cons, ih]

/-- Counting entries by key in a list with no duplicate keys. -/
lemma countP_key_nodup {β : Type} (cs : List (String × β))
    (hnd : (cs.map Prod.fst).Nodup) (p : String × β) (hp : p ∈ cs)
    (C : String × β → Bool) :
    cs.countP (fun q => (q.1 == p.1) && C q) = if C p then 1 else 0 := by
  induction cs with
  | nil => cases hp
  | cons a tl ih =>
    simp only [List.map_cons, List.nodup_cons] at hnd
    rcases List.mem_cons.mp hp with rfl | hmem
    · rw [List.countP_cons]
      have h0 : tl.countP (fun q => (q.1 == p.1) && C q) = 0 := by
        apply List.countP_eq_zero.mpr
        intro q hq
        have hne : q.1 ≠ p.1 := by
          intro h
          exact hnd.1 (h ▸ List.mem_map_of_mem Prod.fst hq)
        simp [hne]
      simp [h0]
    · have hane : a.1 ≠ p.1 := by
        intro h
        exact hnd.1 (h ▸ List.mem_map_of_mem Prod.fst hmem)
      rw [List.countP_cons]
      simp [hane, ih hnd.2 hmem]

/-- How many sends of a no-failure broadcast target a given registry
entry: one if the entry is eligible, zero otherwise. -/
lemma countP_target_map_filter (cs : Registry)
    (hnd : (cs.map Prod.fst).Nodup) (p : String × ClientEntry) (hp : p ∈ cs)
    (A : String × ClientEntry → Bool) (m : ServerMsg) (b : Bool) :
    ((cs.filter A).map (fun q => (⟨q.1, m, b⟩ : SendEvent))).countP
        (fun s => s.target == p.1) = if A p then 1 else 0 := by
  rw [List.countP_map, List.countP_filter]
  exact countP_key_nodup cs hnd p hp A

/-- Parsing `null` back. -/
lemma decodeOptWith_jnull (f : JVal → Option α) : decodeOptWith f jnull = some none := rfl

/-- A serialized bus row parses back to itself. -/
lemma decodeOptWith_encodeBus (b : Bus) :
    decodeOptWith decodeBus (encodeBus b) = some (some b) := by
  obtain ⟨id, bn, cap, st, cl, did, rid, ca⟩ := b
  rcases rid with _ | rid <;> rfl

/-- A serialized user row parses back to itself. -/
lemma decodeOptWith_encodeUser (u : User) :
    decodeOptWith decodeUser (encodeUser u) = some (some u) := by
  obtain ⟨id, un, pw, em, rl, fn, ph, ca⟩ := u
  rcases fn with _ | fn <;> rcases ph with _ | ph <;> rfl

/-- Serialization round trip of `incidentWithDetails`. -/
lemma decode_encode_incident (i : IncidentWithDetails) :
    decodeIncidentWithDetails (encodeIncidentWithDetails i) = some i := by
  obtain ⟨⟨iid, ib, ir, ity, idc, il, ist, ica, ira⟩, b, u⟩ := i
  rcases ira with _ | ra <;> rcases b with _ | b <;> rcases u with _ | u <;>
    simp [decodeIncidentWithDetails, encodeIncidentWithDetails, getField,
      decodeOptWith_encodeBus, decodeOptWith_encodeUser, decodeOptWith_jnull,
      asInt, asStr, asOptStr, encodeOpt]

/-- `Map.set` with truthy fields preserves registry well-formedness. -/
lemma regOk_setClient {cs : Registry} {k : String} {r u : JVal} (h : RegOk cs)
    (hr : truthy r = true) (hu : truthy u = true) :
    RegOk (setClient cs k ⟨r, u⟩) := by
  intro p hp
  unfold setClient at hp
  split at hp
  · rcases List.mem_map.mp hp with ⟨q, hq, hqe⟩
    by_cases hk : (q.1 == k) = true
    · rw [if_pos hk] at hqe
      subst hqe
      exact ⟨hr, hu⟩
    · rw [if_neg hk] at hqe
      subst hqe
      exact h q hq
  · rcases List.mem_append.mp hp with h1 | h1
    · exact h p h1
    · simp only [List.mem_singleton] at h1
      subst h1
      exact ⟨hr, hu⟩

/-- The message handler either leaves the registry unchanged or `set`s
the sender's entry with the (truthy) `role`/`userId` of its auth frame. -/
lemma handleMessage_clients (st : ServerState) (cid : String) (raw : JVal)
    (o f : String → Bool) :
    (handleMessage st cid raw o f).1.clients = st.clients ∨
      ((handleMessage st cid raw o f).1.clients =
          setClient st.clients cid ⟨getField raw "role", getField raw "userId"⟩ ∧
        truthy (getField raw "role") = true ∧
        truthy (getField raw "userId") = true) := by
  unfold handleMessage
  by_cases hauth : (isStr (getField raw "type") "auth" &&
      truthy (getField raw "userId") && truthy (getField raw "role")) = true
  · right
    have h3 := hauth
    rw [Bool.and_eq_true, Bool.and_eq_true] at h3
    refine ⟨?_, h3.2, h3.1.2⟩
    rw [if_pos hauth]
    repeat first | rfl | split
  · left
    rw [if_neg hauth]
    repeat first | rfl | split

/-- One event step preserves registry well-formedness. -/
lemma regOk_step (st : ServerState) (ev : Ev) (h : RegOk st.clients) :
    RegOk (step st ev).clients := by
  cases ev with
  | close cid =>
    intro p hp
    exact h p (List.mem_of_mem_filter hp)
  | msg cid raw o f =>
    rcases handleMessage_clients st cid raw o f with hc | ⟨hc, hr, hu⟩
    · simpa [step, hc] using h
    · simp only [step, hc]
      exact regOk_setClient h hr hu

/-- Any event trace preserves registry well-formedness. -/
lemma regOk_run (st : ServerState) (evs : List Ev) (h : RegOk st.clients) :
    RegOk (run st evs).clients := by
  induction evs generalizing st with
  | nil => exact h
  | cons ev tl ih => exact ih _ (regOk_step st ev h)

/-! ## The claims -/

/-- C1: an `updateLocation` event from an authenticated driver whose
userId has an assigned bus produces exactly the sends
`busLocationUpdate (busId, location)` to the registered passenger-role
connections whose sockets are open — each open passenger receives it
exactly once, and connections whose role is not `passenger` (drivers,
admins) receive nothing. -/
theorem C1_update_location_broadcast (st : ServerState) (cid : String) (raw : JVal)
    (isOpen sendFail : String → Bool) (e : ClientEntry) (b : Bus)
    (hup : isStr (getField raw "type") "updateLocation" = true)
    (hloc : truthy (getField raw "location") = true)
    (hcl : lookupClient st.clients cid = some e)
    (hrole : isStr e.role "driver" = true)
    (hbus : findDriverBus st.db e.userId = some b)
    (hf : ∀ x, sendFail x = false)
    (hnd : (st.clients.map Prod.fst).Nodup) :
    (handleMessage st cid raw isOpen sendFail).2 =
      (st.clients.filter (fun p => isStr p.2.role "passenger" && isOpen p.1)).map
        (fun p => ⟨p.1, ServerMsg.busLocationUpdate b.id (getField raw "location"), true⟩) ∧
    (∀ p ∈ st.clients, isStr p.2.role "passenger" = true → isOpen p.1 = true →
      ((handleMessage st cid raw isOpen sendFail).2.countP
        (fun s => s.target == p.1)) = 1) ∧
    (∀ p ∈ st.clients, isStr p.2.role "passenger" = false →
      ((handleMessage st cid raw isOpen sendFail).2.countP
        (fun s => s.target == p.1)) = 0) := by
  have hauth : isStr (getField raw "type") "auth" = false := isStr_ne hup (by decide)
  have hmain : (handleMessage st cid raw isOpen sendFail).2 =
      (st.clients.filter (fun p => isStr p.2.role "passenger" && isOpen p.1)).map
        (fun p => ⟨p.1, ServerMsg.busLocationUpdate b.id (getField raw "location"), true⟩) := by
    simp [handleMessage, hauth, hup, hloc, hcl, hrole, hbus,
      broadcastToRole_no_fail _ _ _ _ _ hf]
  refine ⟨hmain, ?_, ?_⟩
  · intro p hp hprole hopen
    rw [hmain, countP_target_map_filter st.clients hnd p hp _ _ _]
    simp [hprole, hopen]
  · intro p hp hprole
    rw [hmain, countP_target_map_filter st.clients hnd p hp _ _ _]
    simp [hprole]

/-- C1, evaluated: driver `d1` (user 7, bus 1) sends a location; the one
open passenger gets exactly one `busLocationUpdate`, the driver and
admin entries none. -/
theorem C1_witness :
    (handleMessage ⟨exClients, exDB⟩ "d1" exUpdRaw allOpen noFail).2 =
      (exClients.filter (fun p => isStr p.2.role "passenger" && allOpen p.1)).map
        (fun p => ⟨p.1, ServerMsg.busLocationUpdate exBus.id (getField exUpdRaw "location"),
          true⟩) ∧
    (∀ p ∈ exClients, isStr p.2.role "passenger" = true → allOpen p.1 = true →
      ((handleMessage ⟨exClients, exDB⟩ "d1" exUpdRaw allOpen noFail).2.countP
        (fun s => s.target == p.1)) = 1) ∧
    (∀ p ∈ exClients, isStr p.2.role "passenger" = false →
      ((handleMessage ⟨exClients, exDB⟩ "d1" exUpdRaw allOpen noFail).2.countP
        (fun s => s.target == p.1)) = 0) :=
  C1_update_location_broadcast ⟨exClients, exDB⟩ "d1" exUpdRaw allOpen noFail
    ⟨jstr "driver", jnum 7⟩ exBus rfl rfl rfl rfl rfl (fun _ => rfl) (by decide)

/-- C2: an `updateLocation` from a driver whose userId has no assigned
bus is dropped wholesale: no outbound message, no bus-record write, and
the registry is unchanged — the handler returns the state it was given
and an empty send list. -/
theorem C2_driver_without_bus_drops (st : ServerState) (cid : String) (raw : JVal)
    (isOpen sendFail : String → Bool) (e : ClientEntry)
    (hup : isStr (getField raw "type") "updateLocation" = true)
    (hcl : lookupClient st.clients cid = some e)
    (hrole : isStr e.role "driver" = true)
    (hbus : findDriverBus st.db e.userId = none) :
    handleMessage st cid raw isOpen sendFail = (st, []) := by
  have hauth : isStr (getField raw "type") "auth" = false := isStr_ne hup (by decide)
  cases hloc : truthy (getField raw "location")
  · simp [handleMessage, hauth, hup, hloc]
  · simp [handleMessage, hauth, hup, hloc, hcl, hrole, hbus]

/-- C2, evaluated: driver user 8 has no bus in `exDB`; the event is a
complete no-op. -/
theorem C2_witness :
    handleMessage ⟨[("d8", ⟨jstr "driver", jnum 8⟩)], exDB⟩ "d8" exUpdRaw allOpen noFail =
      (⟨[("d8", ⟨jstr "driver", jnum 8⟩)], exDB⟩, []) :=
  C2_driver_without_bus_drops ⟨[("d8", ⟨jstr "driver", jnum 8⟩)], exDB⟩ "d8" exUpdRaw
    allOpen noFail ⟨jstr "driver", jnum 8⟩ rfl rfl rfl rfl

/-- C3: the code at the spec's failing input.  The ingest checks only
that `data.location` is truthy — an empty object `{}` has no `lat`/`lng`
yet is written verbatim to the bus's `currentLocation` and broadcast to
the passenger, contradicting the claimed validation. -/
theorem C3_unvalidated_location_written :
    handleMessage ⟨exClients, exDB⟩ "d1" exBadLocRaw allOpen noFail =
      (⟨exClients,
        ⟨[⟨1, "B-1", 40, "active", jobj [], jnum 7, some 1, "t0"⟩],
         [exRoute], [exRS2, exRS1], [exStopA, exStopB]⟩⟩,
       [⟨"p1", ServerMsg.busLocationUpdate 1 (jobj []), true⟩]) := rfl

/-- C4: a `passenger` auth produces exactly one `busLocations` send to
that connection, and every bus in its payload has status `active`. -/
theorem C4_passenger_auth_snapshot (st : ServerState) (cid : String) (raw : JVal)
    (isOpen sendFail : String → Bool)
    (hauth : isStr (getField raw "type") "auth" = true)
    (huid : truthy (getField raw "userId") = true)
    (hrole : getField raw "role" = jstr "passenger")
    (hsend : sendFail cid = false) :
    (handleMessage st cid raw isOpen sendFail).2 =
      [⟨cid, ServerMsg.busLocations (activeBuses st.db), true⟩] ∧
    ∀ bd ∈ activeBuses st.db, bd.bus.status = "active" := by
  have htr : truthy (getField raw "role") = true := by rw [hrole]; rfl
  have hpass : isStr (getField raw "role") "passenger" = true := by rw [hrole]; rfl
  constructor
  · simp [handleMessage, hauth, huid, htr, hpass, hsend]
  · intro bd hbd
    rcases List.mem_map.mp hbd with ⟨b, hb, rfl⟩
    simpa using (List.mem_filter.mp hb).2

/-- C4, evaluated on `exDB`. -/
theorem C4_witness :
    (handleMessage ⟨[], exDB⟩ "p1" exAuthPassengerRaw allOpen noFail).2 =
      [⟨"p1", ServerMsg.busLocations (activeBuses exDB), true⟩] ∧
    ∀ bd ∈ activeBuses exDB, bd.bus.status = "active" :=
  C4_passenger_auth_snapshot ⟨[], exDB⟩ "p1" exAuthPassengerRaw allOpen noFail
    rfl rfl rfl rfl

/-- C5, counterexample: with the `route_stops` rows stored out of order,
the passenger's `busLocations` payload carries the stop list in stored
order `[order 2, order 1]`, which is not ascending — the passenger query
has no `orderBy`. -/
theorem C5_passenger_snapshot_unsorted :
    (handleMessage ⟨[], exDB⟩ "p1" exAuthPassengerRaw allOpen noFail).2 =
      [⟨"p1", ServerMsg.busLocations
        [⟨exBus, some ⟨exRoute, [⟨exRS2, some exStopB⟩, ⟨exRS1, some exStopA⟩]⟩⟩],
        true⟩] ∧
    ¬ List.Sorted rsLE [⟨exRS2, some exStopB⟩, ⟨exRS1, some exStopA⟩] :=
  ⟨rfl, by decide⟩

/-- C5, amended: only the driver snapshot (`busRoute`) sorts the stop
list ascending by the `order` field; the passenger snapshot
(`busLocations`) returns each route's stop rows in database storage
order, with no reordering applied. -/
theorem C5_snapshot_ordering_amended :
    (∀ (db : DB) (uid : JVal) (bd : BusDetail), driverBusDetail db uid = some bd →
      ∀ rd, bd.route = some rd → List.Sorted rsLE rd.routeStops) ∧
    (∀ (db : DB) (bd : BusDetail), bd ∈ activeBuses db →
      ∀ rd, bd.route = some rd → rd.routeStops = routeStopsOf db rd.route.id) := by
  constructor
  · intro db uid bd hbd rd hrd
    rcases Option.map_eq_some'.mp hbd with ⟨b, _, rfl⟩
    simp only [routeDetailOrderedOf] at hrd
    rcases hrid : b.routeId with _ | rid
    · rw [hrid, Option.none_bind] at hrd
      exact absurd hrd (Option.noConfusion)
    · rw [hrid, Option.some_bind] at hrd
      rcases Option.map_eq_some'.mp hrd with ⟨r, _, rfl⟩
      exact List.sorted_insertionSort rsLE (routeStopsOf db rid)
  · intro db bd hbd rd hrd
    rcases List.mem_map.mp hbd with ⟨b, _, rfl⟩
    simp only [routeDetailOf] at hrd
    rcases hrid : b.routeId with _ | rid
    · rw [hrid, Option.none_bind] at hrd
      exact absurd hrd (Option.noConfusion)
    · rw [hrid, Option.some_bind] at hrd
      rcases Option.map_eq_some'.mp hrd with ⟨r, hr, rfl⟩
      have : r.id = rid := by
        have := List.find?_some hr
        simpa using this
      simp [this]

/-- C5, evaluated: the driver snapshot of `exDB` is sorted, and the
passenger snapshot of `exDB` is the stored (unsorted) row order. -/
theorem C5_amended_witness :
    List.Sorted rsLE [⟨exRS1, some exStopA⟩, ⟨exRS2, some exStopB⟩] ∧
    [(⟨exRS2, some exStopB⟩ : RouteStopDetail), ⟨exRS1, some exStopA⟩] =
      routeStopsOf exDB 1 :=
  ⟨C5_snapshot_ordering_amended.1 exDB (jnum 7) ⟨exBus, routeDetailOrderedOf exDB exBus⟩
      rfl ⟨exRoute, [⟨exRS1, some exStopA⟩, ⟨exRS2, some exStopB⟩]⟩ rfl,
   C5_snapshot_ordering_amended.2 exDB ⟨exBus, routeDetailOf exDB exBus⟩ (List.Mem.head _)
      ⟨exRoute, [⟨exRS2, some exStopB⟩, ⟨exRS1, some exStopA⟩]⟩ rfl⟩

/-- C6: a `driver` auth whose userId has no assigned bus sends nothing
at all — zero `busRoute` messages, no error to the sender. -/
theorem C6_driver_auth_no_bus_silent (st : ServerState) (cid : String) (raw : JVal)
    (isOpen sendFail : String → Bool)
    (hauth : isStr (getField raw "type") "auth" = true)
    (huid : truthy (getField raw "userId") = true)
    (hrole : getField raw "role" = jstr "driver")
    (hbus : findDriverBus st.db (getField raw "userId") = none) :
    (handleMessage st cid raw isOpen sendFail).2 = [] := by
  have htr : truthy (getField raw "role") = true := by rw [hrole]; rfl
  have hpass : isStr (getField raw "role") "passenger" = false := by rw [hrole]; rfl
  have hdrv : isStr (getField raw "role") "driver" = true := by rw [hrole]; rfl
  simp [handleMessage, hauth, huid, htr, hpass, hdrv, driverBusDetail, hbus]

/-- C6, evaluated: driver user 8 has no bus in `exDB`; the auth gets no
snapshot message. -/
theorem C6_witness :
    (handleMessage ⟨[], exDB⟩ "d8"
      (jobj [("type", jstr "auth"), ("userId", jnum 8), ("role", jstr "driver")])
      allOpen noFail).2 = [] :=
  C6_driver_auth_no_bus_silent ⟨[], exDB⟩ "d8"
    (jobj [("type", jstr "auth"), ("userId", jnum 8), ("role", jstr "driver")])
    allOpen noFail rfl rfl rfl rfl

/-- C7: the incident fan-out delivers a `newIncident` frame to exactly
the registered admin-role connections with open sockets (each exactly
once; non-admin connections get nothing), and the payload, serialized
and parsed back, deep-equals the record passed in. -/
theorem C7_incident_fanout_roundtrip (cs : Registry) (isOpen sendFail : String → Bool)
    (inc : IncidentWithDetails)
    (hf : ∀ x, sendFail x = false) (hnd : (cs.map Prod.fst).Nodup) :
    (notifyAdmins cs isOpen sendFail inc).1 =
      (cs.filter (fun p => isStr p.2.role "admin" && isOpen p.1)).map
        (fun p => ⟨p.1, ServerMsg.newIncident inc, true⟩) ∧
    (∀ p ∈ cs, isStr p.2.role "admin" = true → isOpen p.1 = true →
      ((notifyAdmins cs isOpen sendFail inc).1.countP (fun s => s.target == p.1)) = 1) ∧
    (∀ p ∈ cs, isStr p.2.role "admin" = false →
      ((notifyAdmins cs isOpen sendFail inc).1.countP (fun s => s.target == p.1)) = 0) ∧
    decodeIncidentWithDetails (encodeIncidentWithDetails inc) = some inc := by
  have hmain : (notifyAdmins cs isOpen sendFail inc).1 =
      (cs.filter (fun p => isStr p.2.role "admin" && isOpen p.1)).map
        (fun p => ⟨p.1, ServerMsg.newIncident inc, true⟩) := by
    simp [notifyAdmins, broadcastToRole_no_fail _ _ _ _ _ hf]
  refine ⟨hmain, ?_, ?_, decode_encode_incident inc⟩
  · intro p hp hprole hopen
    rw [hmain, countP_target_map_filter cs hnd p hp _ _ _]
    simp [hprole, hopen]
  · intro p hp hprole
    rw [hmain, countP_target_map_filter cs hnd p hp _ _ _]
    simp [hprole]

/-- C7, evaluated on the spec's scenario: one passenger, one driver and
one admin registered; only the admin receives the `newIncident` frame,
and the payload round-trips. -/
theorem C7_witness :
    (notifyAdmins exClients allOpen noFail exInc).1 =
      (exClients.filter (fun p => isStr p.2.role "admin" && allOpen p.1)).map
        (fun p => ⟨p.1, ServerMsg.newIncident exInc, true⟩) ∧
    (∀ p ∈ exClients, isStr p.2.role "admin" = true → allOpen p.1 = true →
      ((notifyAdmins exClients allOpen noFail exInc).1.countP
        (fun s => s.target == p.1)) = 1) ∧
    (∀ p ∈ exClients, isStr p.2.role "admin" = false →
      ((notifyAdmins exClients allOpen noFail exInc).1.countP
        (fun s => s.target == p.1)) = 0) ∧
    decodeIncidentWithDetails (encodeIncidentWithDetails exInc) = some exInc :=
  C7_incident_fanout_roundtrip exClients allOpen noFail exInc (fun _ => rfl) (by decide)

/-- C8, counterexample: two open passengers `p1`,`p2` in that order; the
write to `p1` throws.  `p2` matches the broadcast predicate (passenger
role, socket open) yet no delivery to it is attempted — the loop has no
per-recipient error isolation. -/
theorem C8_broadcast_failure_aborts :
    (broadcastToRole exClients8 "passenger" allOpen failP1
        (ServerMsg.busLocationUpdate 1 jnull)).1 =
      [⟨"p1", ServerMsg.busLocationUpdate 1 jnull, false⟩] ∧
    ("p2", (⟨jstr "passenger", jnum 2⟩ : ClientEntry)) ∈ exClients8 ∧
    isStr (jstr "passenger") "passenger" = true ∧ allOpen "p2" = true ∧
    ∀ s ∈ (broadcastToRole exClients8 "passenger" allOpen failP1
        (ServerMsg.busLocationUpdate 1 jnull)).1, s.target ≠ "p2" := by
  refine ⟨rfl, ?_, rfl, rfl, ?_⟩
  · simp [exClients8]
  · intro s hs
    have h1 : (broadcastToRole exClients8 "passenger" allOpen failP1
        (ServerMsg.busLocationUpdate 1 jnull)).1 =
        [⟨"p1", ServerMsg.busLocationUpdate 1 jnull, false⟩] := rfl
    rw [h1] at hs
    rcases List.mem_singleton.mp hs with rfl
    decide

/-- C8, amended: a throwing write aborts the broadcast loop — matching
open connections iterated before the first failing one are delivered,
the failing one gets the failed write attempt, and all later matching
connections are skipped (the exception escapes the loop to the
enclosing handler's catch). -/
theorem C8_broadcast_failure_behavior (cs : Registry) (role : String)
    (isOpen sendFail : String → Bool) (m : ServerMsg) :
    broadcastToRole cs role isOpen sendFail m =
      (((cs.filter (fun p => isStr p.2.role role && isOpen p.1)).takeWhile
          (fun p => !sendFail p.1)).map (fun p => ⟨p.1, m, true⟩) ++
        (((cs.filter (fun p => isStr p.2.role role && isOpen p.1)).dropWhile
          (fun p => !sendFail p.1)).head?.elim [] (fun p => [⟨p.1, m, false⟩])),
       (cs.filter (fun p => isStr p.2.role role && isOpen p.1)).any
        (fun p => sendFail p.1)) :=
  broadcastToRole_eq cs role isOpen sendFail m

/-- C9: an `updateLocation` from a connection that is absent from the
registry, or registered with a role other than `driver`, never takes
effect: no bus write, no broadcast, no state change, whatever the
payload and registry. -/
theorem C9_unauthenticated_update_ignored (st : ServerState) (cid : String) (raw : JVal)
    (isOpen sendFail : String → Bool)
    (hup : isStr (getField raw "type") "updateLocation" = true)
    (hnodrv : ∀ e, lookupClient st.clients cid = some e → isStr e.role "driver" = false) :
    handleMessage st cid raw isOpen sendFail = (st, []) := by
  have hauth : isStr (getField raw "type") "auth" = false := isStr_ne hup (by decide)
  cases hloc : truthy (getField raw "location")
  · simp [handleMessage, hauth, hup, hloc]
  · cases hcl : lookupClient st.clients cid with
    | none => simp [handleMessage, hauth, hup, hloc, hcl]
    | some e => simp [handleMessage, hauth, hup, hloc, hcl, hnodrv e hcl]

/-- C9, evaluated: an `updateLocation` on an unregistered connection is
a complete no-op. -/
theorem C9_witness :
    handleMessage ⟨[], exDB⟩ "c9" exUpdRaw allOpen noFail = (⟨[], exDB⟩, []) :=
  C9_unauthenticated_update_ignored ⟨[], exDB⟩ "c9" exUpdRaw allOpen noFail rfl
    (fun _ h => Option.noConfusion h)

/-- C10: starting from the empty registry, after any trace of message
and close events every entry of the connected-clients map has a truthy
role and a truthy userId — entries are created only by the guarded
`auth` branch, so no role-filtered iteration meets an unidentified
entry. -/
theorem C10_registry_entries_identified (evs : List Ev) (db0 : DB) :
    ∀ p ∈ (run ⟨[], db0⟩ evs).clients,
      truthy p.2.role = true ∧ truthy p.2.userId = true :=
  regOk_run ⟨[], db0⟩ evs (fun p hp => absurd hp (List.not_mem_nil p))

/-- C10, evaluated on a one-auth trace. -/
theorem C10_witness :
    truthy (jstr "passenger") = true ∧ truthy (jnum 1) = true :=
  C10_registry_entries_identified [Ev.msg "c1" exAuthPassengerRaw allOpen noFail] exDB
    ("c1", ⟨jstr "passenger", jnum 1⟩) (List.Mem.head _)

end BusHub
